import Mathlib

/-!
Shallow embedding of the box-detail polling/derivation pipeline of the
Penyelamat Pangan dashboard (the `BoxDetailPage` component): the data model
of the two upstream responses, the four fetch-completion state transitions,
and the pure derived-field computations (`latest`, `probabilityPct`,
`confidencePct`, `rslHours`/`rslDays`/`rslRemHours`, `rowsAsc` and the three
gas chart series, `K_PARAM` and the request query parameters).

JavaScript numbers are modelled as rationals; `Math.floor`, `Math.round`
and the `%` operator are given explicit rational definitions.  Optional /
possibly-absent JSON fields are modelled as `Option`; an unguarded property
access on an absent object is modelled as `Except.error` (a thrown
`TypeError`).
-/

namespace PenyelamatPangan

/-- One timestamped sensor observation (TS `interface SensorRow`). -/
structure SensorRow where
  id : Int
  temperatureC : ℚ
  temperatureF : ℚ
  humidity : ℚ
  ppm_nh3 : ℚ
  ppm_co2 : ℚ
  ppm_c2h5oh : ℚ
  timestamp : String
deriving Repr, DecidableEq

/-- Body of `GET /data` (TS `interface DataResponse`).  Both fields are kept
optional so that a 2xx response with a malformed body (missing `data` field)
can be represented; the well-formed body has both fields present. -/
structure DataResponse where
  count : Option Int
  data : Option (List SensorRow)
deriving Repr, DecidableEq

/-- TS `interface RawPrediction`; fields optional to represent responses
lacking them. -/
structure RawPrediction where
  classification_text : Option String
  classification_prob : Option ℚ
  confidence : Option ℚ
  rsl_hours : Option ℚ
  status : Option String
deriving Repr, DecidableEq

/-- The nested `prediction` object of TS `interface PredictResponse`. -/
structure Prediction where
  classification : Option String
  probability : Option ℚ
  confidence : Option ℚ
  raw_prediction : Option RawPrediction
deriving Repr, DecidableEq

/-- Body of `GET /predict` (TS `interface PredictResponse`); the nested
`prediction` object is optional so a malformed body can be represented. -/
structure PredictResponse where
  status : Option String
  prediction : Option Prediction
deriving Repr, DecidableEq

/-- JavaScript `Math.floor` on rationals. -/
def jsFloor (x : ℚ) : Int := Int.floor x

/-- JavaScript `Math.round`: round half toward positive infinity,
`Math.round x = floor (x + 0.5)`. -/
def jsRound (x : ℚ) : Int := Int.floor (x + 1/2)

/-- JavaScript truncation toward zero (used by the `%` operator). -/
def jsTrunc (x : ℚ) : Int := if 0 ≤ x then Int.floor x else Int.ceil x

/-- JavaScript remainder `a % b`: `a - b * trunc (a / b)` (sign follows the
dividend). -/
def jsMod (a b : ℚ) : ℚ := a - b * (jsTrunc (a / b) : ℚ)

/-- JavaScript `v || 0` where `v` is a possibly-`undefined` number:
`undefined` and `0` are falsy. -/
def jsOrZero (v : Option ℚ) : ℚ :=
  match v with
  | none => 0
  | some x => if x = 0 then 0 else x

/-- JavaScript `v || d` where `v` is a possibly-`undefined` string:
`undefined` and the empty string are falsy. -/
def jsOrString (v : Option String) (d : String) : String :=
  match v with
  | none => d
  | some s => if s = "" then d else s

/-- The component state touched by the two fetch callbacks: the
`dataRows`, `predict`, `errorMsg`, `loadingData` and `loadingPredict`
`useState` slices of `BoxDetailPage`. -/
structure ViewState where
  dataRows : List SensorRow
  predict : Option PredictResponse
  errorMsg : Option String
  loadingData : Bool
  loadingPredict : Bool
deriving Repr, DecidableEq

/-- Step of `fetchDataRows` before the request: `setLoadingData(true)`. -/
def dataStart (s : ViewState) : ViewState := { s with loadingData := true }

/-- Success path of `fetchDataRows`: `setDataRows(data?.data ?? [])`, then the
`finally` block runs `setLoadingData(false)`.  `body` is the axios-decoded
response body. -/
def dataSuccess (body : Option DataResponse) (s : ViewState) : ViewState :=
  { s with dataRows := (body.bind DataResponse.data).getD [], loadingData := false }

/-- Catch path of `fetchDataRows`: `setErrorMsg(e.message)`, then `finally`
runs `setLoadingData(false)`.  The existing `dataRows` slice is not
touched. -/
def dataFailure (msg : String) (s : ViewState) : ViewState :=
  { s with errorMsg := some msg, loadingData := false }

/-- Step of `fetchPredict` before the request: `setLoadingPredict(true)`. -/
def predictStart (s : ViewState) : ViewState := { s with loadingPredict := true }

/-- Success path of `fetchPredict`: `setPredict(data)`, then `finally` runs
`setLoadingPredict(false)`. -/
def predictSuccess (body : Option PredictResponse) (s : ViewState) : ViewState :=
  { s with predict := body, loadingPredict := false }

/-- Catch path of `fetchPredict`: `setErrorMsg(e.message)`, then `finally`
runs `setLoadingPredict(false)`.  The existing `predict` slice is not
touched. -/
def predictFailure (msg : String) (s : ViewState) : ViewState :=
  { s with errorMsg := some msg, loadingPredict := false }

/-- Embedding of `const latest = dataRows[0] || null`.  Row objects are always truthy, so
this is the head of the newest-first list, or `none` when the list is
empty (out-of-bounds indexing yields `undefined`, which is falsy). -/
def latest (rows : List SensorRow) : Option SensorRow := rows.head?

/-- Embedding of `predict?.prediction?.classification ?? dash`. -/
def classification (p : Option PredictResponse) : String :=
  (((p.bind PredictResponse.prediction).bind Prediction.classification).getD "—")

/-- Embedding of `predict ? Math.round((predict.prediction.probability || 0) * 100) : null`.
The access `predict.prediction.probability` is NOT optional-chained: when
`predict` is present but its `prediction` object is absent, evaluating it
throws a `TypeError`, modelled as `Except.error`. -/
def probabilityPct (p : Option PredictResponse) : Except String (Option Int) :=
  match p with
  | none => .ok none
  | some resp =>
    match resp.prediction with
    | none => .error "TypeError: cannot read properties of undefined"
    | some pred => .ok (some (jsRound (jsOrZero pred.probability * 100)))

/-- Embedding of `predict?.prediction?.confidence ?? null`. -/
def confidencePct (p : Option PredictResponse) : Option ℚ :=
  (p.bind PredictResponse.prediction).bind Prediction.confidence

/-- Embedding of `predict?.prediction?.raw_prediction?.rsl_hours ?? null`. -/
def rslHours (p : Option PredictResponse) : Option ℚ :=
  ((p.bind PredictResponse.prediction).bind Prediction.raw_prediction).bind
    RawPrediction.rsl_hours

/-- Embedding of `rslHours != null ? Math.floor(rslHours / 24) : null`. -/
def rslDays (p : Option PredictResponse) : Option Int :=
  (rslHours p).map (fun h => jsFloor (h / 24))

/-- Embedding of `rslHours != null ? Math.round(rslHours % 24) : null`. -/
def rslRemHours (p : Option PredictResponse) : Option Int :=
  (rslHours p).map (fun h => jsRound (jsMod h 24))

/-- Embedding of `const rowsAsc = [...dataRows].reverse()`: the spread copies the raw
list, so the raw `dataRows` value is left unmutated; the copy is reversed
in place, giving exactly the reversal of the newest-first list. -/
def rowsAsc (rows : List SensorRow) : List SensorRow := rows.reverse

/-- Embedding of the `rowsAsc.map` call building, per row, the pair of
`new Date(r.timestamp).toLocaleTimeString()` and `r.ppm_co2`; the locale
timestamp formatting is abstracted as the function argument `fmt`. -/
def co2Series (fmt : String → String) (rows : List SensorRow) : List (String × ℚ) :=
  (rowsAsc rows).map (fun r => (fmt r.timestamp, r.ppm_co2))

/-- The NH3 chart series, built from `rowsAsc` exactly like `co2Series`. -/
def nh3Series (fmt : String → String) (rows : List SensorRow) : List (String × ℚ) :=
  (rowsAsc rows).map (fun r => (fmt r.timestamp, r.ppm_nh3))

/-- The ethanol chart series, built from `rowsAsc` exactly like `co2Series`. -/
def ethanolSeries (fmt : String → String) (rows : List SensorRow) : List (String × ℚ) :=
  (rowsAsc rows).map (fun r => (fmt r.timestamp, r.ppm_c2h5oh))

/-- Temperature card: `loadingData ? '…' : latest ? latest.temperatureC.toFixed(1) + '°C' : '—'`;
number formatting (`toFixed(1)`) is abstracted as `fmtQ`. -/
def temperatureDisplay (fmtQ : ℚ → String) (loading : Bool) (rows : List SensorRow) : String :=
  if loading then "…" else
    match latest rows with
    | none => "—"
    | some r => fmtQ r.temperatureC ++ "°C"

/-- Humidity card: `loadingData ? '…' : latest ? latest.humidity + '%' : '—'`. -/
def humidityDisplay (fmtQ : ℚ → String) (loading : Bool) (rows : List SensorRow) : String :=
  if loading then "…" else
    match latest rows with
    | none => "—"
    | some r => fmtQ r.humidity ++ "%"

/-- CO2 mini card: `loadingData ? '…' : latest ? latest.ppm_co2 + ' ppm' : '—'`. -/
def co2Display (fmtQ : ℚ → String) (loading : Bool) (rows : List SensorRow) : String :=
  if loading then "…" else
    match latest rows with
    | none => "—"
    | some r => fmtQ r.ppm_co2 ++ " ppm"

/-- NH3 mini card: `loadingData ? '…' : latest ? latest.ppm_nh3 + ' ppm' : '—'`. -/
def nh3Display (fmtQ : ℚ → String) (loading : Bool) (rows : List SensorRow) : String :=
  if loading then "…" else
    match latest rows with
    | none => "—"
    | some r => fmtQ r.ppm_nh3 ++ " ppm"

/-- Ethanol mini card: `loadingData ? '…' : latest ? latest.ppm_c2h5oh + ' ppm' : '—'`. -/
def ethanolDisplay (fmtQ : ℚ → String) (loading : Bool) (rows : List SensorRow) : String :=
  if loading then "…" else
    match latest rows with
    | none => "—"
    | some r => fmtQ r.ppm_c2h5oh ++ " ppm"

/-- Embedding of `const K_PARAM = process.env.NEXT_PUBLIC_K || <default string>`;
`env` is the value of the `NEXT_PUBLIC_K` environment variable
(`none` when unset). -/
def K_PARAM (env : Option String) : String :=
  jsOrString env "ggodjob gpt terbaik, i trust you"

/-- Query parameters of the sensor-data request:
`api.get('/data', { params: { limit: 50, k: K_PARAM } })`. -/
def dataRequestParams (env : Option String) : List (String × String) :=
  [("limit", "50"), ("k", K_PARAM env)]

/-- Query parameters of the prediction request: `api.get('/predict')`
passes no `params` option. -/
def predictRequestParams : List (String × String) := []

/-- A concrete sensor row, used in concrete instantiations. -/
def row1 : SensorRow :=
  { id := 1, temperatureC := 4, temperatureF := 392/10, humidity := 80,
    ppm_nh3 := 1, ppm_co2 := 400, ppm_c2h5oh := 2,
    timestamp := "2025-01-01T00:00:00Z" }

/-- The initial component state: the `useState` initial values (empty rows,
no prediction, no error, both loading flags true). -/
def initialState : ViewState :=
  { dataRows := [], predict := none, errorMsg := none,
    loadingData := true, loadingPredict := true }

/-- C1: in a tick where the sensor-data request fails with message `e` and
the prediction request succeeds with body `p`, after both requests settle
(in either interleaving order) the sensor-rows slice equals its pre-tick
value, the prediction slice equals the newly received body, and the shared
error message is the failure's description. -/
theorem c1_failure_isolation (s : ViewState) (e : String) (p : Option PredictResponse) :
    ((predictSuccess p (dataFailure e (predictStart (dataStart s)))).dataRows = s.dataRows ∧
     (predictSuccess p (dataFailure e (predictStart (dataStart s)))).predict = p ∧
     (predictSuccess p (dataFailure e (predictStart (dataStart s)))).errorMsg = some e) ∧
    ((dataFailure e (predictSuccess p (predictStart (dataStart s)))).dataRows = s.dataRows ∧
     (dataFailure e (predictSuccess p (predictStart (dataStart s)))).predict = p ∧
     (dataFailure e (predictSuccess p (predictStart (dataStart s)))).errorMsg = some e) :=
  ⟨⟨rfl, rfl, rfl⟩, ⟨rfl, rfl, rfl⟩⟩

/-- C3: the chart sequence `rowsAsc` is exactly the reversal of the
newest-first row list (no deduplication, no interpolation, no gap-filling:
element-for-element equality with the reverse), the raw list is not mutated
(`rowsAsc` is a pure function of it), and reversing the resampled sequence
again yields the original list; every row of the input appears in the
output and vice versa, all fields preserved. -/
theorem c3_rowsAsc_pure_reversal (rows : List SensorRow) :
    rowsAsc rows = rows.reverse ∧
    rowsAsc (rowsAsc rows) = rows ∧
    (rowsAsc rows).reverse = rows ∧
    (rowsAsc rows).length = rows.length ∧
    ∀ r : SensorRow, r ∈ rowsAsc rows ↔ r ∈ rows := by
  refine ⟨rfl, ?_, ?_, ?_, ?_⟩ <;> simp [rowsAsc]

/-- C6 counterexample: the claim says the shared error message is cleared
when the source that failed succeeds again.  Concretely: starting from the
initial state, the sensor-data source fails with message `network error`,
then the same source succeeds with a fresh row — yet the error message is
still `some network error`, not cleared. -/
theorem c6_counterexample :
    (dataSuccess (some { count := some 1, data := some [row1] })
        (dataFailure "network error" initialState)).errorMsg = some "network error" := rfl

/-- C6 amended: once a failure sets the shared error message, no later
success of either source (including the one that failed) clears or changes
it; only a later failure overwrites it with that failure's description, so
the message reflects the most recent failure ever observed. -/
theorem c6_error_message_never_cleared (s : ViewState) (bd : Option DataResponse)
    (bp : Option PredictResponse) (e : String) :
    (dataSuccess bd s).errorMsg = s.errorMsg ∧
    (predictSuccess bp s).errorMsg = s.errorMsg ∧
    (dataStart s).errorMsg = s.errorMsg ∧
    (predictStart s).errorMsg = s.errorMsg ∧
    (dataFailure e s).errorMsg = some e ∧
    (predictFailure e s).errorMsg = some e :=
  ⟨rfl, rfl, rfl, rfl, rfl, rfl⟩

/-- C9: each gas channel yields one (formatted timestamp, value) pair per
row of the chronological sequence: all three series have length equal to
the row count, and the pair at each index is built from the row at the same
index of `rowsAsc`. -/
theorem c9_series_one_pair_per_row (fmt : String → String) (rows : List SensorRow) :
    (co2Series fmt rows).length = rows.length ∧
    (nh3Series fmt rows).length = rows.length ∧
    (ethanolSeries fmt rows).length = rows.length ∧
    (∀ i : Nat, (co2Series fmt rows)[i]? =
      ((rowsAsc rows)[i]?).map (fun r => (fmt r.timestamp, r.ppm_co2))) ∧
    (∀ i : Nat, (nh3Series fmt rows)[i]? =
      ((rowsAsc rows)[i]?).map (fun r => (fmt r.timestamp, r.ppm_nh3))) ∧
    (∀ i : Nat, (ethanolSeries fmt rows)[i]? =
      ((rowsAsc rows)[i]?).map (fun r => (fmt r.timestamp, r.ppm_c2h5oh))) := by
  refine ⟨?_, ?_, ?_, fun i => ?_, fun i => ?_, fun i => ?_⟩ <;>
    simp only [co2Series, nh3Series, ethanolSeries, rowsAsc, List.length_map,
      List.length_reverse, List.getElem?_map]

/-- C10: every sensor-data request carries, besides `limit=50`, the extra
query parameter `k` whose value is the `NEXT_PUBLIC_K` environment variable
when set (and nonempty), and the hard-coded default string when unset;
prediction requests carry no query parameters. -/
theorem c10_data_request_carries_k (env : Option String) :
    dataRequestParams env = [("limit", "50"), ("k", K_PARAM env)] ∧
    (env = none → K_PARAM env = "ggodjob gpt terbaik, i trust you") ∧
    (∀ v : String, env = some v → v ≠ "" → K_PARAM env = v) ∧
    predictRequestParams = [] := by
  refine ⟨rfl, ?_, ?_, rfl⟩
  · rintro rfl; rfl
  · rintro v rfl hv
    simp [K_PARAM, jsOrString, hv]

/-- C10 witness: with `NEXT_PUBLIC_K` unset, the sensor-data request's
query parameters are `limit=50` and `k=<default string>`, and the predict
request has none. -/
theorem c10_witness :
    dataRequestParams none =
      [("limit", "50"), ("k", "ggodjob gpt terbaik, i trust you")] ∧
    predictRequestParams = [] := by
  have h := c10_data_request_carries_k none
  exact ⟨by rw [h.1, h.2.1 rfl], h.2.2.2⟩

/-- A fully-populated nested prediction object. -/
def mkPrediction (cls : String) (prob conf hours : ℚ) : Prediction :=
  { classification := some cls, probability := some prob,
    confidence := some conf,
    raw_prediction := some
      { classification_text := some cls, classification_prob := some prob,
        confidence := some conf, rsl_hours := some hours,
        status := some "success" } }

/-- A fully-populated, well-formed `/predict` body. -/
def mkPredictResponse (cls : String) (prob conf hours : ℚ) : PredictResponse :=
  { status := some "success", prediction := some (mkPrediction cls prob conf hours) }

/-- Evaluation of `v || 0` on a present number is the number itself (both branches of the
falsy test agree when the number is `0`). -/
theorem jsOrZero_some (x : ℚ) : jsOrZero (some x) = x := by
  by_cases h : x = 0 <;> simp [jsOrZero, h]

/-- For a non-negative dividend and positive divisor, the JavaScript `%`
truncates in the same direction as the mathematical floor. -/
theorem jsTrunc_nonneg (x : ℚ) (h : 0 ≤ x) : jsTrunc x = Int.floor x := by
  simp [jsTrunc, h]

/-- C2: whenever the prediction carries a non-negative `rsl_hours` value
`h`, the derived whole days are `floor (h / 24)` and the derived remainder
hours are `Math.round` of the remainder `h mod 24 = h - 24 * floor (h / 24)`
(for non-negative `h` the JavaScript `%` agrees with this mathematical
remainder). -/
theorem c2_rsl_decomposition (p : Option PredictResponse) (h : ℚ)
    (h0 : 0 ≤ h) (hr : rslHours p = some h) :
    rslDays p = some (Int.floor (h / 24)) ∧
    rslRemHours p = some (jsRound (h - 24 * Int.floor (h / 24))) := by
  have ht : jsTrunc (h / 24) = Int.floor (h / 24) :=
    jsTrunc_nonneg _ (div_nonneg h0 (by norm_num))
  constructor
  · simp [rslDays, hr, jsFloor]
  · simp [rslRemHours, hr, jsMod, ht]

/-- C2 witness: the three instances named by the claim.  `rsl_hours = 30`
yields `1` day and `6` remainder hours; `0` yields `0` and `0`; `23.6`
yields `0` days and `round 23.6 = 24` remainder hours. -/
theorem c2_witness :
    ((0:ℚ) ≤ 30 ∧
      rslDays (some (mkPredictResponse "Fresh" (87/100) 91 30)) = some 1 ∧
      rslRemHours (some (mkPredictResponse "Fresh" (87/100) 91 30)) = some 6) ∧
    ((0:ℚ) ≤ 0 ∧
      rslDays (some (mkPredictResponse "Fresh" (87/100) 91 0)) = some 0 ∧
      rslRemHours (some (mkPredictResponse "Fresh" (87/100) 91 0)) = some 0) ∧
    ((0:ℚ) ≤ 118/5 ∧
      rslDays (some (mkPredictResponse "Fresh" (87/100) 91 (118/5))) = some 0 ∧
      rslRemHours (some (mkPredictResponse "Fresh" (87/100) 91 (118/5))) = some 24) := by
  have h30 := c2_rsl_decomposition
    (some (mkPredictResponse "Fresh" (87/100) 91 30)) 30 (by norm_num) rfl
  have hz := c2_rsl_decomposition
    (some (mkPredictResponse "Fresh" (87/100) 91 0)) 0 le_rfl rfl
  have h236 := c2_rsl_decomposition
    (some (mkPredictResponse "Fresh" (87/100) 91 (118/5))) (118/5) (by norm_num) rfl
  refine ⟨⟨by norm_num, ?_, ?_⟩, ⟨le_rfl, ?_, ?_⟩, ⟨by norm_num, ?_, ?_⟩⟩
  · rw [h30.1]; norm_num
  · rw [h30.2]; norm_num [jsRound]
  · rw [hz.1]; norm_num
  · rw [hz.2]; norm_num [jsRound]
  · rw [h236.1]; norm_num
  · rw [h236.2]; norm_num [jsRound]

/-- C4: `latest` is the first element of the raw newest-first row list and
is undefined exactly when the list is empty; with the list empty (and the
loading flag settled), every derived numeric display shows the placeholder
dash rather than throwing. -/
theorem c4_latest_is_head (fmtQ : ℚ → String) (rows : List SensorRow) :
    (latest rows = none ↔ rows = []) ∧
    (∀ (r : SensorRow) (t : List SensorRow), rows = r :: t → latest rows = some r) ∧
    (rows = [] →
      temperatureDisplay fmtQ false rows = "—" ∧
      humidityDisplay fmtQ false rows = "—" ∧
      co2Display fmtQ false rows = "—" ∧
      nh3Display fmtQ false rows = "—" ∧
      ethanolDisplay fmtQ false rows = "—") := by
  refine ⟨?_, ?_, ?_⟩
  · cases rows <;> simp [latest]
  · rintro r t rfl; rfl
  · rintro rfl
    exact ⟨rfl, rfl, rfl, rfl, rfl⟩

/-- C4 witness: at the empty response `latest` is undefined and the
temperature and humidity cards show the dash; at a one-row response
`latest` is that row. -/
theorem c4_witness :
    latest ([] : List SensorRow) = none ∧
    latest [row1] = some row1 ∧
    temperatureDisplay (fun _ => "4.0") false [] = "—" ∧
    humidityDisplay (fun _ => "80") false [] = "—" := by
  have he := c4_latest_is_head (fun _ => "4.0") ([] : List SensorRow)
  have hh := c4_latest_is_head (fun _ => "80") ([] : List SensorRow)
  have hc := c4_latest_is_head (fun _ => "4.0") [row1]
  exact ⟨he.1.mpr rfl, hc.2.1 row1 [] rfl, (he.2.2 rfl).1, (hh.2.2 rfl).2.1⟩

/-- A malformed `/predict` body: present response, absent nested
`prediction` object. -/
def malformedPredict : PredictResponse :=
  { status := some "error", prediction := none }

/-- C5 counterexample: the claim says that with the nested `prediction`
object absent the probability derivation falls back to a placeholder
without throwing; in fact `predict.prediction.probability` is not
optional-chained, so on a present response without `prediction` it throws a
`TypeError` (modelled as `Except.error`). -/
theorem c5_counterexample :
    probabilityPct (some malformedPredict) =
      .error "TypeError: cannot read properties of undefined" := rfl

/-- A `/predict` body whose nested `prediction` object is present but has
every optional field absent. -/
def sparseResp : PredictResponse :=
  { status := some "success",
    prediction := some
      { classification := none, probability := none, confidence := none,
        raw_prediction := none } }

/-- C5 amended: when the whole response is absent, all derivations yield
placeholders; when the response is present, absence of `confidence`,
`raw_prediction` or `rsl_hours` falls back to a placeholder via optional
chaining, absence of only `probability` yields `0` (not a placeholder),
and absence of the nested `prediction` object makes the probability
derivation throw a `TypeError`. -/
theorem c5_optional_field_fallbacks (resp : PredictResponse) :
    (probabilityPct none = .ok none ∧ confidencePct none = none ∧
      rslHours none = none ∧ rslDays none = none ∧ rslRemHours none = none) ∧
    (resp.prediction = none →
      probabilityPct (some resp) =
        .error "TypeError: cannot read properties of undefined") ∧
    (∀ pred : Prediction, resp.prediction = some pred →
      (pred.probability = none → probabilityPct (some resp) = .ok (some 0)) ∧
      (pred.confidence = none → confidencePct (some resp) = none) ∧
      (pred.raw_prediction = none → rslHours (some resp) = none) ∧
      (∀ raw : RawPrediction, pred.raw_prediction = some raw →
        raw.rsl_hours = none → rslHours (some resp) = none)) := by
  refine ⟨⟨rfl, rfl, rfl, rfl, rfl⟩, ?_, ?_⟩
  · intro hnone
    simp [probabilityPct, hnone]
  · intro pred hpred
    refine ⟨?_, ?_, ?_, ?_⟩
    · intro hp
      have : jsRound (jsOrZero pred.probability * 100) = 0 := by
        simp [hp, jsOrZero, jsRound]
        norm_num
      simp [probabilityPct, hpred, this]
    · intro hc
      simp [confidencePct, hpred, hc]
    · intro hrw
      simp [rslHours, hpred, hrw]
    · intro raw hraw hrsl
      simp [rslHours, hpred, hraw, hrsl]

/-- C5 witness for the amended claim: on the sparse body, probability
evaluates to `0`, while confidence and shelf life fall back to the
placeholder; on the absent response, probability is the placeholder. -/
theorem c5_witness :
    probabilityPct none = .ok none ∧
    probabilityPct (some sparseResp) = .ok (some 0) ∧
    confidencePct (some sparseResp) = none ∧
    rslHours (some sparseResp) = none := by
  have h := c5_optional_field_fallbacks sparseResp
  have h2 := h.2.2 _ rfl
  exact ⟨h.1.1, h2.1 rfl, h2.2.1 rfl, h2.2.2.1 rfl⟩

/-- A pre-tick state holding one previously received sensor row. -/
def c7PreState : ViewState :=
  { dataRows := [row1], predict := none, errorMsg := none,
    loadingData := true, loadingPredict := false }

/-- C7 counterexample: the claim says a 2xx body lacking the `data` field
is treated as the source-unavailable failure condition, leaving the
existing row slice untouched.  In fact `setDataRows(data?.data ?? [])`
replaces the previously received row `row1` with the empty list and sets
no error message. -/
theorem c7_counterexample :
    c7PreState.dataRows = [row1] ∧
    (dataSuccess (some { count := some 0, data := none }) c7PreState).dataRows = [] ∧
    (dataSuccess (some { count := some 0, data := none }) c7PreState).errorMsg = none :=
  ⟨rfl, rfl, rfl⟩

/-- C7 amended: a 2xx response whose body lacks the `data` field is
treated as a successful empty response, not as a failure: the sensor-row
slice is replaced wholesale by the empty list, the error message and the
prediction slice are untouched, and the loading flag settles. -/
theorem c7_missing_data_field_clears_rows (s : ViewState) (body : Option DataResponse)
    (hb : body.bind DataResponse.data = none) :
    (dataSuccess body s).dataRows = [] ∧
    (dataSuccess body s).errorMsg = s.errorMsg ∧
    (dataSuccess body s).predict = s.predict ∧
    (dataSuccess body s).loadingData = false := by
  simp [dataSuccess, hb]

/-- C7 witness for the amended claim: from the initial state, a body with
only a `count` field empties the row slice and raises no error. -/
theorem c7_witness :
    (dataSuccess (some { count := some 3, data := none }) initialState).dataRows = [] ∧
    (dataSuccess (some { count := some 3, data := none }) initialState).errorMsg = none := by
  have h := c7_missing_data_field_clears_rows initialState
    (some { count := some 3, data := none }) rfl
  exact ⟨h.1, h.2.1.trans rfl⟩

/-- C8: for a well-formed prediction with probability `p ∈ [0,1]` and
confidence `c`, the displayed percentage is `Math.round (p * 100)` and the
confidence is passed through to the display untransformed. -/
theorem c8_probability_confidence_formatting (resp : PredictResponse)
    (pred : Prediction) (p c : ℚ) (hpred : resp.prediction = some pred)
    (hp : pred.probability = some p) (hc : pred.confidence = some c)
    (h0 : 0 ≤ p) (h1 : p ≤ 1) :
    probabilityPct (some resp) = .ok (some (jsRound (p * 100))) ∧
    confidencePct (some resp) = some c := by
  constructor
  · simp [probabilityPct, hpred, hp, jsOrZero_some]
  · simp [confidencePct, hpred, hc]

/-- C8 witness: probability `0.8734` is displayed as `87`, confidence `91`
is passed through unchanged. -/
theorem c8_witness :
    (0:ℚ) ≤ 8734/10000 ∧ (8734/10000 : ℚ) ≤ 1 ∧
    probabilityPct (some (mkPredictResponse "Fresh" (8734/10000) 91 30)) = .ok (some 87) ∧
    confidencePct (some (mkPredictResponse "Fresh" (8734/10000) 91 30)) = some 91 := by
  have h := c8_probability_confidence_formatting
    (mkPredictResponse "Fresh" (8734/10000) 91 30) (mkPrediction "Fresh" (8734/10000) 91 30)
    (8734/10000) 91 rfl rfl rfl (by norm_num) (by norm_num)
  refine ⟨by norm_num, by norm_num, ?_, h.2⟩
  rw [h.1]
  norm_num [jsRound]

end PenyelamatPangan
